import Mathlib

/-!
Verification development for the slingshot projectile games of the
JS-Assignment-2025 repository.

The embedding covers the two canvas games that share the projectile core:

* `Shoot` models `AKSHAT_YADAV/SHOOT-THE-TARGET/game.js` (levels, hazards,
  obstacles, target, shot accounting, win/lose state machine).
* `Angry` models `AKSHAT_YADAV/ANGRY-BIRD-GAME/game.js` (the simpler
  variant: one projectile, trail ring, ground/bounds reset).

JavaScript numbers are modelled by exact rationals `ℚ`.  The games use
`Math.hypot`/`Math.sqrt` in two places whose *results* feed back into state:

* `vel.length() < 0.1` (shoot re-enable check) — modelled by the exactly
  equivalent squared comparison `x*x + y*y < 0.1*0.1` (both sides of the
  original comparison are nonnegative, so squaring is an equivalence);
* `launch.length()` inside the pointer-up handler and `Vector.normalize` —
  the length is irrational in general, so functions that consume it take it
  as an explicit argument `len`, constrained by hypotheses
  (`0 ≤ len`, `len * len = x*x + y*y`) in the theorems that need it.

The cosmetic spin accumulator (`projectile.angle`, renderer-only, never read
by the simulation or the session state) is omitted from the projectile record.
-/

namespace Shoot

/-- The `Vector` class shared verbatim by both game files
(`SHOOT-THE-TARGET/game.js` lines 94-126, `ANGRY-BIRD-GAME/game.js`
lines 41-78): a mutable 2-D vector, modelled here as a value. -/
structure Vector where
  x : ℚ
  y : ℚ
deriving DecidableEq, Repr

/-- `add(v)` from the `Vector` class. -/
def Vector.add (v w : Vector) : Vector := ⟨v.x + w.x, v.y + w.y⟩

/-- `scale(s)` from the `Vector` class. -/
def Vector.scale (v : Vector) (s : ℚ) : Vector := ⟨v.x * s, v.y * s⟩

/-- `Vector.fromPoints(a, b) = b - a`. -/
def Vector.fromPoints (a b : Vector) : Vector := ⟨b.x - a.x, b.y - a.y⟩

/-- `normalize()` from the `Vector` class:
`let l = this.length(); if (l > 0) { this.x /= l; this.y /= l }`.
The length `l = Math.hypot(x, y)` is irrational in general, so it is passed
explicitly as `len`; theorems about `normalize` constrain `len` by
`0 ≤ len` and `len * len = x*x + y*y`. -/
def Vector.normalize (v : Vector) (len : ℚ) : Vector :=
  if 0 < len then ⟨v.x / len, v.y / len⟩ else v

/-- An axis-aligned rectangle `{x, y, w, h, isFloor}` as used for walls,
bombs and targets; `isFloor` is absent (hence `false`) on bombs/targets. -/
structure Rect where
  x : ℚ
  y : ℚ
  w : ℚ
  h : ℚ
  isFloor : Bool := false
deriving DecidableEq, Repr

/-- The circle argument `{x, y, r}` passed to `circleVsAABB`. -/
structure Circle where
  x : ℚ
  y : ℚ
  r : ℚ
deriving DecidableEq, Repr

/-- `circleVsAABB` (`SHOOT-THE-TARGET/game.js` lines 128-134; the identical
`circleVsAABB` of `ANGRY-BIRD-GAME/game.js` lines 123-131 differs only in
variable names): clamp the center into the rectangle's span on each axis and
compare the squared distance against the squared radius. -/
def circleVsAABB (c : Circle) (r : Rect) : Bool :=
  let cx := max r.x (min c.x (r.x + r.w))
  let cy := max r.y (min c.y (r.y + r.h))
  let dx := c.x - cx
  let dy := c.y - cy
  decide (dx * dx + dy * dy ≤ c.r * c.r)

/-- C1: `circleVsAABB` returns `true` iff the Euclidean distance from the
circle's center to the nearest point of the rectangle — obtained by clamping
each coordinate of the center into the rectangle's span on that axis — is at
most the radius.  (Covers in particular the fully-inside, tangent, and
center-on-corner cases, where the clamped point coincides with the center,
lies at distance exactly `r`, or is the corner itself.) -/
theorem circleVsAABB_dist (c : Circle) (rect : Rect) (hr : 0 ≤ c.r) :
    circleVsAABB c rect = true ↔
      Real.sqrt ((((c.x - max rect.x (min c.x (rect.x + rect.w)) : ℚ) : ℝ)) ^ 2
          + (((c.y - max rect.y (min c.y (rect.y + rect.h)) : ℚ) : ℝ)) ^ 2)
        ≤ (c.r : ℝ) := by
  have hb : circleVsAABB c rect = true ↔
      (c.x - max rect.x (min c.x (rect.x + rect.w)))
          * (c.x - max rect.x (min c.x (rect.x + rect.w)))
        + (c.y - max rect.y (min c.y (rect.y + rect.h)))
          * (c.y - max rect.y (min c.y (rect.y + rect.h)))
        ≤ c.r * c.r := by
    simp [circleVsAABB]
  rw [hb]
  set dx : ℚ := c.x - max rect.x (min c.x (rect.x + rect.w)) with hdx
  set dy : ℚ := c.y - max rect.y (min c.y (rect.y + rect.h)) with hdy
  have hrR : (0 : ℝ) ≤ (c.r : ℝ) := by exact_mod_cast hr
  constructor
  · intro h
    have h1 : ((dx : ℝ)) ^ 2 + ((dy : ℝ)) ^ 2 ≤ ((c.r : ℝ)) ^ 2 := by
      have h' : (dx : ℝ) * (dx : ℝ) + (dy : ℝ) * (dy : ℝ)
          ≤ (c.r : ℝ) * (c.r : ℝ) := by exact_mod_cast h
      nlinarith [h']
    calc Real.sqrt ((dx : ℝ) ^ 2 + (dy : ℝ) ^ 2)
        ≤ Real.sqrt ((c.r : ℝ) ^ 2) := Real.sqrt_le_sqrt h1
      _ = (c.r : ℝ) := Real.sqrt_sq hrR
  · intro h
    have hnn : (0 : ℝ) ≤ (dx : ℝ) ^ 2 + (dy : ℝ) ^ 2 := by positivity
    have hs := Real.sq_sqrt hnn
    have h2 : (dx : ℝ) ^ 2 + (dy : ℝ) ^ 2 ≤ ((c.r : ℝ)) ^ 2 := by
      nlinarith [h, Real.sqrt_nonneg ((dx : ℝ) ^ 2 + (dy : ℝ) ^ 2), hs, hrR]
    have h3 : (dx : ℝ) * (dx : ℝ) + (dy : ℝ) * (dy : ℝ)
        ≤ (c.r : ℝ) * (c.r : ℝ) := by nlinarith [h2]
    exact_mod_cast h3

/-- Witness for C1 at a concrete input: circle of radius 5 centered exactly
on the corner of the rectangle. -/
theorem circleVsAABB_dist_witness :
    (0 : ℚ) ≤ 5 ∧
      (circleVsAABB ⟨0, 0, 5⟩ ⟨0, 0, 10, 10, false⟩ = true ↔
        Real.sqrt ((((0 - max 0 (min 0 (0 + 10)) : ℚ) : ℝ)) ^ 2
            + (((0 - max 0 (min 0 (0 + 10)) : ℚ) : ℝ)) ^ 2) ≤ ((5 : ℚ) : ℝ)) :=
  ⟨by norm_num, circleVsAABB_dist ⟨0, 0, 5⟩ ⟨0, 0, 10, 10, false⟩ (by norm_num)⟩

/-- `GRAVITY = 0.35` (`game.js` line 30). -/
def GRAVITY : ℚ := 0.35

/-- `BOUNCE = -0.6` (`game.js` line 31). -/
def BOUNCE : ℚ := -0.6

/-- `BALL_RADIUS = 15` (`game.js` line 33). -/
def BALL_RADIUS : ℚ := 15

/-- `LOCKOUT_MS = 4500` (`game.js` line 34). -/
def LOCKOUT_MS : ℚ := 4500

/-- `MAX_SHOTS = 7` (`game.js` line 35). -/
def MAX_SHOTS : ℕ := 7

/-- `HITS_TO_WIN = 3` (`game.js` line 36). -/
def HITS_TO_WIN : ℕ := 3

/-- A level `{walls, bombs, target, shape}` (`game.js` lines 38-82).
`shape` is the cosmetic renderer tag. -/
structure Level where
  walls : List Rect
  bombs : List Rect
  target : Rect
  shape : String
deriving DecidableEq, Repr

/-- Level 1 (`game.js` lines 39-50). -/
def lvl0 : Level :=
  { walls := [⟨400, 300, 20, 200, false⟩, ⟨420, 380, 150, 20, true⟩,
      ⟨550, 370, 20, 110, false⟩]
    bombs := [⟨550, 340, 20, 20, false⟩]
    target := ⟨700, 330, 40, 40, false⟩
    shape := "circle" }

/-- Level 2 (`game.js` lines 51-67). -/
def lvl1 : Level :=
  { walls := [⟨580, 240, 40, 200, false⟩, ⟨450, 380, 50, 20, true⟩,
      ⟨500, 400, 50, 20, false⟩, ⟨550, 420, 50, 20, false⟩,
      ⟨700, 420, 50, 20, true⟩, ⟨650, 400, 50, 20, false⟩,
      ⟨600, 380, 50, 20, false⟩, ⟨550, 300, 200, 20, true⟩,
      ⟨550, 260, 20, 40, false⟩, ⟨730, 220, 20, 100, false⟩]
    bombs := [⟨540, 220, 30, 30, false⟩]
    target := ⟨640, 280, 20, 20, false⟩
    shape := "square" }

/-- Level 3 (`game.js` lines 68-81). -/
def lvl2 : Level :=
  { walls := [⟨500, 420, 300, 20, true⟩, ⟨520, 400, 40, 20, false⟩,
      ⟨560, 380, 40, 20, false⟩, ⟨600, 360, 40, 20, false⟩,
      ⟨640, 340, 40, 20, false⟩, ⟨680, 320, 40, 20, false⟩,
      ⟨780, 280, 20, 160, false⟩]
    bombs := [⟨750, 260, 30, 30, false⟩]
    target := ⟨720, 380, 30, 30, false⟩
    shape := "triangle" }

/-- The `levels` array; `currentLevel` only takes the values 0, 1, 2
offered by the level-select control, so it is modelled as `Fin 3`. -/
def levels : Fin 3 → Level := ![lvl0, lvl1, lvl2]

/-- The projectile record created on launch (`game.js` lines 177-182):
position, velocity and trail history.  The cosmetic `angle` field (read only
by the renderer) is omitted. -/
structure Projectile where
  pos : Vector
  vel : Vector
  trail : List Vector
deriving DecidableEq, Repr

/-- The module-level mutable state of `SHOOT-THE-TARGET/game.js`
(lines 84-92 and 161-162), plus the viewport data (`canvas.width`,
`canvas.height`, `groundY`) that `resizeCanvas` maintains. -/
structure GameState where
  projectile : Option Projectile
  lastShotTime : ℚ
  allowShoot : Bool
  shotsTaken : ℕ
  gameOver : Bool
  targetHit : Bool
  currentLevel : Fin 3
  hitCount : ℕ
  isDragging : Bool
  dragEnd : Option Vector
  canvasW : ℚ
  canvasH : ℚ
  groundY : ℚ
deriving DecidableEq, Repr

/-- `slingStart = new Vector(150, groundY - BALL_RADIUS)`
(`game.js` line 140; recomputed with `groundY` on resize, hence derived). -/
def slingStart (s : GameState) : Vector := ⟨150, s.groundY - BALL_RADIUS⟩

/-- `resizeCanvas` (`game.js` lines 136-141): records the viewport and sets
`groundY = canvas.height * (1 - groundFrac)` with `groundFrac = 0.2`. -/
def resizeCanvas (w h : ℚ) (s : GameState) : GameState :=
  { s with canvasW := w, canvasH := h, groundY := h * (1 - 0.2) }

/-- `resetLevel` (`game.js` lines 150-158). -/
def resetLevel (s : GameState) : GameState :=
  { s with
    projectile := none
    shotsTaken := 0
    gameOver := false
    targetHit := false
    allowShoot := true
    hitCount := 0 }

/-- The state after the initial `resizeCanvas()` and `resetLevel()` calls,
for a viewport of size `w × h`. -/
def initState (w h : ℚ) : GameState :=
  { projectile := none, lastShotTime := 0, allowShoot := true,
    shotsTaken := 0, gameOver := false, targetHit := false,
    currentLevel := 0, hitCount := 0, isDragging := false, dragEnd := none,
    canvasW := w, canvasH := h, groundY := h * (1 - 0.2) }

/-- The `pointerdown` handler (`game.js` lines 163-167). -/
def pointerdown (e : Vector) (s : GameState) : GameState :=
  if s.allowShoot = false ∨ MAX_SHOTS ≤ s.shotsTaken ∨ s.gameOver = true then s
  else { s with isDragging := true, dragEnd := some e }

/-- The `pointermove` handler (`game.js` lines 168-170). -/
def pointermove (e : Vector) (s : GameState) : GameState :=
  if s.isDragging then { s with dragEnd := some e } else s

/-- The `pointerup` handler (`game.js` lines 171-186).  `now` stands for
`performance.now()`; `len` stands for `launch.length()` (see the module
doc comment on irrational lengths). -/
def pointerup (now len : ℚ) (s : GameState) : GameState :=
  if s.isDragging = false ∨ s.allowShoot = false then s
  else
    match s.dragEnd with
    | none => s
    | some d =>
      let launch := Vector.fromPoints d (slingStart s)
      let power := min len 150
      let vel := (Vector.normalize launch len).scale (power * 0.25)
      { s with
        isDragging := false
        projectile := some ⟨slingStart s, vel, [slingStart s]⟩
        lastShotTime := now
        allowShoot := false
        shotsTaken := s.shotsTaken + 1 }

/-- The shoot re-enable condition at the top of `update`
(`game.js` lines 273-274):
`!projectile || projectile.vel.length() < 0.1 || now - lastShotTime > LOCKOUT_MS`.
The speed comparison is the exact squared equivalent of
`Math.hypot(vx, vy) < 0.1`. -/
def allowFlag (now : ℚ) (s : GameState) : Bool :=
  match s.projectile with
  | none => true
  | some p =>
    decide (p.vel.x * p.vel.x + p.vel.y * p.vel.y < 0.1 * 0.1)
      || decide (now - s.lastShotTime > LOCKOUT_MS)

/-- The first statement of `update`: re-enable `allowShoot` when
`allowFlag` holds. -/
def applyAllow (now : ℚ) (s : GameState) : GameState :=
  if allowFlag now s then { s with allowShoot := true } else s

/-- The floor/ground bounce response (`game.js` lines 282-283, 296-297):
`vel.y *= BOUNCE; vel.x *= Math.abs(BOUNCE)`. -/
def bounceVel (v : Vector) : Vector := ⟨v.x * |BOUNCE|, v.y * BOUNCE⟩

/-- The non-floor wall deflection (`game.js` lines 299-300):
`vel.x *= -1; vel.y *= BOUNCE`. -/
def deflectVel (v : Vector) : Vector := ⟨v.x * (-1), v.y * BOUNCE⟩

/-- Gravity, position integration and the ground-plane clamp+bounce
(`game.js` lines 277-284), producing the position/velocity pair entering
the collision checks. -/
def tickPosVel (groundY : ℚ) (p : Projectile) : Vector × Vector :=
  let vel0 : Vector := ⟨p.vel.x, p.vel.y + GRAVITY⟩
  let pos0 : Vector := ⟨p.pos.x + vel0.x, p.pos.y + vel0.y⟩
  if pos0.y + BALL_RADIUS > groundY then
    (⟨pos0.x, groundY - BALL_RADIUS⟩, bounceVel vel0)
  else (pos0, vel0)

/-- The bomb loop's test (`game.js` lines 285-291): whether the projectile
at `pos` overlaps any hazard of the level. -/
def bombsHit (lvl : Level) (pos : Vector) : Bool :=
  lvl.bombs.any fun b => circleVsAABB ⟨pos.x, pos.y, BALL_RADIUS⟩ b

/-- One iteration of the `lvl.walls.forEach` body (`game.js` lines 292-305),
threading the mutated position/velocity pair. -/
def wallStep (pv : Vector × Vector) (w : Rect) : Vector × Vector :=
  if circleVsAABB ⟨pv.1.x, pv.1.y, BALL_RADIUS⟩ w then
    if w.isFloor then (⟨pv.1.x, w.y - BALL_RADIUS⟩, bounceVel pv.2)
    else
      (⟨if pv.1.x < w.x then w.x - BALL_RADIUS else w.x + w.w + BALL_RADIUS,
          pv.1.y⟩,
        deflectVel pv.2)
  else pv

/-- The body of `if (projectile && !gameOver) { ... }` in `update`
(`game.js` lines 276-319): integration, ground bounce, bomb check (early
return), wall loop, target check (early return), trail push, bounds check. -/
def physics (s : GameState) (p : Projectile) : GameState :=
  let lvl := levels s.currentLevel
  let pv0 := tickPosVel s.groundY p
  if bombsHit lvl pv0.1 then { s with gameOver := true, projectile := none }
  else
    let pv := lvl.walls.foldl wallStep pv0
    if circleVsAABB ⟨pv.1.x, pv.1.y, BALL_RADIUS⟩ lvl.target then
      if HITS_TO_WIN ≤ s.hitCount + 1 then
        { s with
          hitCount := s.hitCount + 1
          targetHit := true
          gameOver := true
          projectile := none }
      else { s with hitCount := s.hitCount + 1, projectile := none }
    else
      if pv.1.x < 0 ∨ pv.1.x > s.canvasW ∨ pv.1.y > s.canvasH then
        { s with projectile := none }
      else
        { s with projectile := some ⟨pv.1, pv.2, p.trail ++ [pv.1]⟩ }

/-- The per-frame `update` function (`game.js` lines 271-320). -/
def update (now : ℚ) (s : GameState) : GameState :=
  let s1 := applyAllow now s
  match s1.projectile, s1.gameOver with
  | some p, false => physics s1 p
  | _, _ => s1

lemma applyAllow_projectile (now : ℚ) (s : GameState) :
    (applyAllow now s).projectile = s.projectile := by
  unfold applyAllow; split <;> rfl

lemma applyAllow_gameOver (now : ℚ) (s : GameState) :
    (applyAllow now s).gameOver = s.gameOver := by
  unfold applyAllow; split <;> rfl

lemma applyAllow_hitCount (now : ℚ) (s : GameState) :
    (applyAllow now s).hitCount = s.hitCount := by
  unfold applyAllow; split <;> rfl

lemma applyAllow_targetHit (now : ℚ) (s : GameState) :
    (applyAllow now s).targetHit = s.targetHit := by
  unfold applyAllow; split <;> rfl

lemma applyAllow_shotsTaken (now : ℚ) (s : GameState) :
    (applyAllow now s).shotsTaken = s.shotsTaken := by
  unfold applyAllow; split <;> rfl

lemma applyAllow_currentLevel (now : ℚ) (s : GameState) :
    (applyAllow now s).currentLevel = s.currentLevel := by
  unfold applyAllow; split <;> rfl

lemma applyAllow_groundY (now : ℚ) (s : GameState) :
    (applyAllow now s).groundY = s.groundY := by
  unfold applyAllow; split <;> rfl

lemma applyAllow_allowShoot (now : ℚ) (s : GameState) :
    (applyAllow now s).allowShoot = (s.allowShoot || allowFlag now s) := by
  unfold applyAllow; split <;> simp_all

/-- C2: spec claim — once `MAX_SHOTS` shots are spent, no projectile remains
and `hitCount < HITS_TO_WIN`, the session should become `RoundOver(Loss)`.
The code has no such transition: with the projectile absent, `update` can
only touch `allowShoot`, so the game-over flag stays `false` forever (the
loss banner and the reset button, both gated on `gameOver`, never appear). -/
theorem exhausted_shots_no_loss (now : ℚ) (s : GameState)
    (hp : s.projectile = none) (hs : s.shotsTaken = MAX_SHOTS)
    (hh : s.hitCount < HITS_TO_WIN) (hg : s.gameOver = false) :
    (update now s).gameOver = false ∧ (update now s).shotsTaken = MAX_SHOTS ∧
      (update now s).hitCount = s.hitCount ∧
      (update now s).projectile = none := by
  have h1 : (applyAllow now s).projectile = none := by
    rw [applyAllow_projectile, hp]
  simp [update, h1, applyAllow_gameOver, applyAllow_shotsTaken,
    applyAllow_hitCount, hg, hs]

/-- Concrete witness for C2's theorem: the failing input itself — all seven
shots spent, projectile gone, two hits scored, round not over. -/
def s7 : GameState :=
  { projectile := none
    lastShotTime := 0
    allowShoot := true
    shotsTaken := 7
    gameOver := false
    targetHit := false
    currentLevel := 0
    hitCount := 2
    isDragging := false
    dragEnd := none
    canvasW := 1600
    canvasH := 1000
    groundY := 800 }

/-- Witness for C2's theorem at the concrete exhausted-shots state. -/
theorem exhausted_shots_no_loss_witness :
    (update 99999 s7).gameOver = false ∧
      (update 99999 s7).shotsTaken = MAX_SHOTS ∧
      (update 99999 s7).hitCount = s7.hitCount ∧
      (update 99999 s7).projectile = none :=
  exhausted_shots_no_loss 99999 s7 rfl rfl (by decide) rfl

/-- C6: both bounce responses lose kinetic energy — the Euclidean magnitude
of the velocity after a floor/ground bounce (`bounceVel`) or a non-floor
wall deflection (`deflectVel`) is at most the magnitude before. -/
theorem bounce_energy_loss (v : Vector) :
    Real.sqrt (((bounceVel v).x : ℝ) ^ 2 + ((bounceVel v).y : ℝ) ^ 2)
        ≤ Real.sqrt ((v.x : ℝ) ^ 2 + (v.y : ℝ) ^ 2) ∧
      Real.sqrt (((deflectVel v).x : ℝ) ^ 2 + ((deflectVel v).y : ℝ) ^ 2)
        ≤ Real.sqrt ((v.x : ℝ) ^ 2 + (v.y : ℝ) ^ 2) := by
  constructor
  · apply Real.sqrt_le_sqrt
    have hx : (bounceVel v).x = v.x * (3 / 5) := by
      show v.x * |BOUNCE| = v.x * (3 / 5)
      norm_num [BOUNCE]
    have hy : (bounceVel v).y = v.y * (-3 / 5) := by
      show v.y * BOUNCE = v.y * (-3 / 5)
      norm_num [BOUNCE]
    rw [hx, hy]
    push_cast
    nlinarith [sq_nonneg ((v.x : ℝ)), sq_nonneg ((v.y : ℝ))]
  · apply Real.sqrt_le_sqrt
    have hx : (deflectVel v).x = v.x * (-1) := rfl
    have hy : (deflectVel v).y = v.y * (-3 / 5) := by
      show v.y * BOUNCE = v.y * (-3 / 5)
      norm_num [BOUNCE]
    rw [hx, hy]
    push_cast
    nlinarith [sq_nonneg ((v.x : ℝ)), sq_nonneg ((v.y : ℝ))]

/-- C9: `normalize` leaves the zero vector unchanged (the `l > 0` guard
avoids the division entirely), and divides every vector of positive length
by its length.  `len` stands for the `Math.hypot` length of `v`. -/
theorem normalize_safe (v : Vector) (len : ℚ) (h0 : 0 ≤ len)
    (hlen : len * len = v.x * v.x + v.y * v.y) :
    (v.x = 0 ∧ v.y = 0 → Vector.normalize v len = v) ∧
      (0 < len → Vector.normalize v len = ⟨v.x / len, v.y / len⟩) := by
  constructor
  · rintro ⟨hx, hy⟩
    have h1 : len * len = 0 := by rw [hlen, hx, hy]; ring
    have h2 : len = 0 := mul_self_eq_zero.mp h1
    simp [Vector.normalize, h2]
  · intro hpos
    simp [Vector.normalize, hpos]

/-- Witness for C9's theorem: normalizing the 3-4-5 vector, and the zero
vector with zero length. -/
theorem normalize_safe_witness :
    Vector.normalize ⟨3, 4⟩ 5 = (⟨3 / 5, 4 / 5⟩ : Vector) ∧
      Vector.normalize ⟨0, 0⟩ 0 = (⟨0, 0⟩ : Vector) :=
  ⟨(normalize_safe ⟨3, 4⟩ 5 (by norm_num) (by norm_num)).2 (by norm_num),
    (normalize_safe ⟨0, 0⟩ 0 (by norm_num) (by norm_num)).1 (by norm_num)⟩

/-- C5: hitting a hazard ends the round in failure — the game-over flag is
set, the win flag is untouched (so the loss banner shows), the projectile is
removed, and `hitCount` is unchanged. -/
theorem bomb_hit_loss (now : ℚ) (s : GameState) (p : Projectile)
    (hp : s.projectile = some p) (hg : s.gameOver = false)
    (hb : bombsHit (levels s.currentLevel) (tickPosVel s.groundY p).1 = true) :
    (update now s).gameOver = true ∧
      (update now s).targetHit = s.targetHit ∧
      (update now s).projectile = none ∧
      (update now s).hitCount = s.hitCount := by
  have h1 : (applyAllow now s).projectile = some p := by
    rw [applyAllow_projectile, hp]
  have h2 : (applyAllow now s).gameOver = false := by
    rw [applyAllow_gameOver, hg]
  have hb' : bombsHit (levels (applyAllow now s).currentLevel)
      (tickPosVel (applyAllow now s).groundY p).1 = true := by
    rw [applyAllow_currentLevel, applyAllow_groundY]; exact hb
  simp [update, h1, h2, physics, hb', applyAllow_targetHit,
    applyAllow_hitCount]

lemma levels_zero : levels 0 = lvl0 := by decide

lemma levels_one : levels 1 = lvl1 := by decide

/-- A concrete state whose projectile lands on the level-1 bomb at
`{x:550, y:340, w:20, h:20}` this tick: the pre-tick velocity `(0, -0.35)`
cancels against gravity, so the integrated position stays `(560, 350)`,
inside the bomb. -/
def cexBomb : GameState :=
  { projectile := some ⟨⟨560, 350⟩, ⟨0, -0.35⟩, []⟩
    lastShotTime := 0
    allowShoot := false
    shotsTaken := 2
    gameOver := false
    targetHit := false
    currentLevel := 0
    hitCount := 1
    isDragging := false
    dragEnd := none
    canvasW := 1600
    canvasH := 1000
    groundY := 800 }

/-- Witness for C5's theorem at the concrete bomb-strike state. -/
theorem bomb_hit_loss_witness :
    (update 0 cexBomb).gameOver = true ∧
      (update 0 cexBomb).targetHit = cexBomb.targetHit ∧
      (update 0 cexBomb).projectile = none ∧
      (update 0 cexBomb).hitCount = cexBomb.hitCount :=
  bomb_hit_loss 0 cexBomb ⟨⟨560, 350⟩, ⟨0, -0.35⟩, []⟩ rfl rfl (by
    norm_num [cexBomb, bombsHit, levels_zero, lvl0, circleVsAABB, tickPosVel,
      bounceVel, GRAVITY, BALL_RADIUS, List.any])

lemma physics_allowShoot (s : GameState) (p : Projectile) :
    (physics s p).allowShoot = s.allowShoot := by
  unfold physics
  dsimp only
  split
  · rfl
  · split
    · split <;> rfl
    · split <;> rfl

lemma update_allowShoot (now : ℚ) (s : GameState) :
    (update now s).allowShoot = (s.allowShoot || allowFlag now s) := by
  unfold update
  dsimp only
  split
  · rw [physics_allowShoot, applyAllow_allowShoot]
  all_goals rw [applyAllow_allowShoot]

/-- C3 (amended): `allowShoot` is re-enabled exactly when the projectile is
absent, OR its speed is below the epsilon `0.1`, OR the lockout duration has
elapsed since the last shot — a disjunction, not a conjunction: an elapsed
lockout alone re-enables shooting even while the projectile is still fast. -/
theorem allowShoot_reenable (now : ℚ) (s : GameState)
    (h : s.allowShoot = false) :
    (update now s).allowShoot = true ↔
      (s.projectile = none ∨
        (∃ p, s.projectile = some p ∧
          p.vel.x * p.vel.x + p.vel.y * p.vel.y < 0.1 * 0.1) ∨
        now - s.lastShotTime > LOCKOUT_MS) := by
  rw [update_allowShoot, h]
  cases hp : s.projectile with
  | none => simp [allowFlag, hp]
  | some p => simp [allowFlag, hp]

/-- Witness for C3's amended theorem: with the projectile absent and
`allowShoot` off, one `update` re-enables shooting. -/
theorem allowShoot_reenable_witness :
    (update 0
        { projectile := none
          lastShotTime := 0
          allowShoot := false
          shotsTaken := 1
          gameOver := false
          targetHit := false
          currentLevel := 0
          hitCount := 0
          isDragging := false
          dragEnd := none
          canvasW := 1600
          canvasH := 1000
          groundY := 800 }).allowShoot = true :=
  (allowShoot_reenable 0 _ rfl).mpr (Or.inl rfl)

/-- A reachable-shaped state refuting C3 as stated: `allowShoot` is off, the
projectile is in flight at speed `5` (far above the epsilon), but the
lockout (`4500` ms) has elapsed (`now = 5000`, `lastShotTime = 0`). -/
def cex3 : GameState :=
  { projectile := some ⟨⟨300, 100⟩, ⟨5, 0⟩, []⟩
    lastShotTime := 0
    allowShoot := false
    shotsTaken := 1
    gameOver := false
    targetHit := false
    currentLevel := 0
    hitCount := 0
    isDragging := false
    dragEnd := none
    canvasW := 1600
    canvasH := 1000
    groundY := 800 }

/-- Counterexample to C3 as stated: `allowShoot` flips from `false` to
`true` on this tick although a projectile is in flight with speed `5 ≥ 0.1`
(and remains in flight after the tick) — the elapsed lockout alone suffices,
contradicting the claimed conjunction with "no projectile is in flight". -/
theorem allowShoot_reenable_cex :
    cex3.allowShoot = false ∧
      cex3.projectile = some ⟨⟨300, 100⟩, ⟨5, 0⟩, []⟩ ∧
      ((0.1 : ℚ) * 0.1 ≤ 5 * 5 + 0 * 0) ∧
      (update 5000 cex3).allowShoot = true ∧
      (update 5000 cex3).projectile.isSome = true := by
  refine ⟨rfl, rfl, by norm_num, ?_, ?_⟩ <;>
    norm_num [cex3, update, applyAllow, allowFlag, physics, tickPosVel,
      bombsHit, wallStep, bounceVel, deflectVel, circleVsAABB, levels_zero,
      lvl0, GRAVITY, BALL_RADIUS, BOUNCE, LOCKOUT_MS, List.foldl, List.any]

/-- C4 (amended): collisions are tested in the fixed order hazards, then
obstacles, then target.  A hazard hit preempts everything afterwards (no
scoring, projectile removed, `hitCount`/`targetHit` untouched, even if the
target also overlaps); absent a hazard hit, the target is tested against the
position left by the obstacle pass, scoring exactly one hit; with neither,
the session counters are untouched.  (The claim's "at most one
state-changing outcome" fails for obstacles: the wall loop applies a
response for every overlapping wall — see the counterexample.) -/
theorem collision_order (now : ℚ) (s : GameState) (p : Projectile)
    (hp : s.projectile = some p) (hg : s.gameOver = false) :
    (bombsHit (levels s.currentLevel) (tickPosVel s.groundY p).1 = true →
        (update now s).hitCount = s.hitCount ∧
        (update now s).targetHit = s.targetHit ∧
        (update now s).projectile = none) ∧
      (bombsHit (levels s.currentLevel) (tickPosVel s.groundY p).1 = false →
        circleVsAABB
            ⟨((levels s.currentLevel).walls.foldl wallStep
                (tickPosVel s.groundY p)).1.x,
              ((levels s.currentLevel).walls.foldl wallStep
                (tickPosVel s.groundY p)).1.y,
              BALL_RADIUS⟩
            (levels s.currentLevel).target = true →
        (update now s).hitCount = s.hitCount + 1 ∧
        (update now s).projectile = none) ∧
      (bombsHit (levels s.currentLevel) (tickPosVel s.groundY p).1 = false →
        circleVsAABB
            ⟨((levels s.currentLevel).walls.foldl wallStep
                (tickPosVel s.groundY p)).1.x,
              ((levels s.currentLevel).walls.foldl wallStep
                (tickPosVel s.groundY p)).1.y,
              BALL_RADIUS⟩
            (levels s.currentLevel).target = false →
        (update now s).hitCount = s.hitCount ∧
        (update now s).gameOver = false ∧
        (update now s).targetHit = s.targetHit) := by
  have h1 : (applyAllow now s).projectile = some p := by
    rw [applyAllow_projectile, hp]
  have h2 : (applyAllow now s).gameOver = false := by
    rw [applyAllow_gameOver, hg]
  refine ⟨?_, ?_, ?_⟩
  · intro hb
    have hb' : bombsHit (levels (applyAllow now s).currentLevel)
        (tickPosVel (applyAllow now s).groundY p).1 = true := by
      rw [applyAllow_currentLevel, applyAllow_groundY]; exact hb
    simp [update, h1, h2, physics, hb', applyAllow_targetHit,
      applyAllow_hitCount]
  · intro hb ht
    have hb' : bombsHit (levels (applyAllow now s).currentLevel)
        (tickPosVel (applyAllow now s).groundY p).1 = false := by
      rw [applyAllow_currentLevel, applyAllow_groundY]; exact hb
    have ht' : circleVsAABB
        ⟨((levels (applyAllow now s).currentLevel).walls.foldl wallStep
            (tickPosVel (applyAllow now s).groundY p)).1.x,
          ((levels (applyAllow now s).currentLevel).walls.foldl wallStep
            (tickPosVel (applyAllow now s).groundY p)).1.y,
          BALL_RADIUS⟩
        (levels (applyAllow now s).currentLevel).target = true := by
      rw [applyAllow_currentLevel, applyAllow_groundY]; exact ht
    simp only [update, h1, h2, physics, hb', ht', Bool.false_eq_true,
      if_false, if_true, applyAllow_hitCount]
    split <;> simp [applyAllow_hitCount]
  · intro hb ht
    have hb' : bombsHit (levels (applyAllow now s).currentLevel)
        (tickPosVel (applyAllow now s).groundY p).1 = false := by
      rw [applyAllow_currentLevel, applyAllow_groundY]; exact hb
    have ht' : circleVsAABB
        ⟨((levels (applyAllow now s).currentLevel).walls.foldl wallStep
            (tickPosVel (applyAllow now s).groundY p)).1.x,
          ((levels (applyAllow now s).currentLevel).walls.foldl wallStep
            (tickPosVel (applyAllow now s).groundY p)).1.y,
          BALL_RADIUS⟩
        (levels (applyAllow now s).currentLevel).target = false := by
      rw [applyAllow_currentLevel, applyAllow_groundY]; exact ht
    simp only [update, h1, h2, physics, hb', ht', Bool.false_eq_true,
      if_false, applyAllow_hitCount]
    split <;> simp [applyAllow_hitCount, applyAllow_gameOver, hg,
      applyAllow_targetHit]

/-- A concrete level-1 state in which the integrated position `(550, 410)`
overlaps two distinct non-floor walls, `{x:500,y:400,w:50,h:20}` and
`{x:550,y:420,w:50,h:20}` (the pre-tick velocity `(0, -0.35)` cancels
against gravity, so the position does not move this tick). -/
def cex4 : GameState :=
  { projectile := some ⟨⟨550, 410⟩, ⟨0, -0.35⟩, []⟩
    lastShotTime := 0
    allowShoot := true
    shotsTaken := 1
    gameOver := false
    targetHit := false
    currentLevel := 1
    hitCount := 0
    isDragging := false
    dragEnd := none
    canvasW := 1600
    canvasH := 1000
    groundY := 800 }

/-- Counterexample to C4's "only the single highest-precedence outcome takes
effect": at `cex4` the integrated position `(550, 410)` overlaps two walls;
the wall loop applies a deflection for each (and then a third wall that the
second correction pushes the projectile into), leaving the projectile at
`x = 665` — not at `x = 565`, where applying only the first (highest-
precedence) obstacle response would leave it. -/
theorem collision_order_cex :
    (tickPosVel 800 ⟨⟨550, 410⟩, ⟨0, -0.35⟩, []⟩).1 = (⟨550, 410⟩ : Vector) ∧
      circleVsAABB ⟨550, 410, 15⟩ ⟨500, 400, 50, 20, false⟩ = true ∧
      circleVsAABB ⟨550, 410, 15⟩ ⟨550, 420, 50, 20, false⟩ = true ∧
      (update 0 cex4).projectile = some ⟨⟨665, 410⟩, ⟨0, 0⟩, [⟨665, 410⟩]⟩ ∧
      (update 0 cex4).projectile ≠
        some ⟨⟨565, 410⟩, ⟨0, 0⟩, [⟨565, 410⟩]⟩ := by
  refine ⟨?_, ?_, ?_, ?_, ?_⟩ <;>
    norm_num [cex4, update, applyAllow, allowFlag, physics, tickPosVel,
      bombsHit, wallStep, bounceVel, deflectVel, circleVsAABB, levels_one,
      lvl1, GRAVITY, BALL_RADIUS, BOUNCE, LOCKOUT_MS, List.foldl, List.any]

/-- C7 (amended): the shot-count and session-over preconditions are enforced
when the drag STARTS (`pointerdown`), while the release (`pointerup`) checks
only `isDragging` and `allowShoot`; every rejection at either stage is a
silent no-op (the state is returned unchanged, no projectile is created),
and every accepted release increments `shotsTaken` by exactly one, creates a
projectile, clears `allowShoot`, and leaves `gameOver`/`hitCount` alone.
Because `gameOver` is not re-checked at release, a drag that began before
the round ended can still be accepted after it ends. -/
theorem launch_gating (s : GameState) (e : Vector) (now len : ℚ) :
    ((s.allowShoot = false ∨ MAX_SHOTS ≤ s.shotsTaken ∨ s.gameOver = true) →
        pointerdown e s = s) ∧
      (s.allowShoot = true → s.shotsTaken < MAX_SHOTS → s.gameOver = false →
        pointerdown e s = { s with isDragging := true, dragEnd := some e }) ∧
      ((s.isDragging = false ∨ s.allowShoot = false) →
        pointerup now len s = s) ∧
      (∀ d, s.isDragging = true → s.allowShoot = true →
        s.dragEnd = some d →
        (pointerup now len s).shotsTaken = s.shotsTaken + 1 ∧
          (pointerup now len s).allowShoot = false ∧
          (pointerup now len s).projectile.isSome = true ∧
          (pointerup now len s).gameOver = s.gameOver ∧
          (pointerup now len s).hitCount = s.hitCount ∧
          (pointerup now len s).lastShotTime = now) := by
  refine ⟨?_, ?_, ?_, ?_⟩
  · intro h
    unfold pointerdown
    rw [if_pos h]
  · intro h1 h2 h3
    unfold pointerdown
    rw [if_neg]
    simp [h1, h3]
    omega
  · intro h
    unfold pointerup
    rw [if_pos]
    tauto
  · intro d h1 h2 hd
    unfold pointerup
    rw [if_neg (by simp [h1, h2]), hd]
    simp

/-- A concrete state reachable by: a shot is fired, the lockout elapses
while the projectile is still bouncing (re-enabling `allowShoot`), the
player starts a new drag (accepted: 3 < 7 shots, round not over), and the
still-live old projectile then strikes a bomb, setting `gameOver` and
clearing the projectile — all before the player releases. -/
def cex7 : GameState :=
  { projectile := none
    lastShotTime := 0
    allowShoot := true
    shotsTaken := 3
    gameOver := true
    targetHit := false
    currentLevel := 0
    hitCount := 0
    isDragging := true
    dragEnd := some ⟨120, 745⟩
    canvasW := 1600
    canvasH := 1000
    groundY := 800 }

/-- Counterexample to C7 as stated: at `cex7` the session is over
(`gameOver = true`), yet the release is accepted — a projectile is created
and `shotsTaken` increments — contradicting "a launch attempt is accepted
only when ... the session is not over". -/
theorem launch_gating_cex :
    cex7.gameOver = true ∧
      (pointerup 5000 50 cex7).shotsTaken = cex7.shotsTaken + 1 ∧
      (pointerup 5000 50 cex7).projectile.isSome = true := by
  refine ⟨rfl, ?_, ?_⟩ <;>
    norm_num [cex7, pointerup, slingStart, Vector.fromPoints,
      Vector.normalize, Vector.scale, BALL_RADIUS]

/-- Witness for C7's amended theorem: an accepted release at a fresh state
increments `shotsTaken` to 1, and a `pointerdown` on an ended round is a
no-op. -/
theorem launch_gating_witness :
    (pointerup 100 50
        { projectile := none
          lastShotTime := 0
          allowShoot := true
          shotsTaken := 0
          gameOver := false
          targetHit := false
          currentLevel := 0
          hitCount := 0
          isDragging := true
          dragEnd := some ⟨120, 745⟩
          canvasW := 1600
          canvasH := 1000
          groundY := 800 }).shotsTaken = 0 + 1 ∧
      pointerdown ⟨5, 5⟩ cex7 = cex7 :=
  ⟨((launch_gating _ ⟨5, 5⟩ 100 50).2.2.2 ⟨120, 745⟩ rfl rfl rfl).1,
    (launch_gating cex7 ⟨5, 5⟩ 100 50).1 (Or.inr (Or.inr rfl))⟩

/-- Witness for C4's amended theorem: its no-hazard-no-target branch at the
free-flight state `cex3`. -/
theorem collision_order_witness :
    (update 5000 cex3).hitCount = cex3.hitCount ∧
      (update 5000 cex3).gameOver = false ∧
      (update 5000 cex3).targetHit = cex3.targetHit :=
  (collision_order 5000 cex3 ⟨⟨300, 100⟩, ⟨5, 0⟩, []⟩ rfl rfl).2.2
    (by
      norm_num [cex3, bombsHit, levels_zero, lvl0, circleVsAABB, tickPosVel,
        bounceVel, GRAVITY, BALL_RADIUS, List.any])
    (by
      norm_num [cex3, levels_zero, lvl0, circleVsAABB, tickPosVel, bounceVel,
        wallStep, deflectVel, GRAVITY, BALL_RADIUS, BOUNCE, List.foldl])

/-- The event alphabet of the running page: animation-frame ticks, the three
pointer handlers, the reset button, the level-select control (which sets
`currentLevel` and then calls `resetLevel`), and window resizes. -/
inductive Step : GameState → GameState → Prop where
  | tick (now : ℚ) (s : GameState) : Step s (update now s)
  | pdown (e : Vector) (s : GameState) : Step s (pointerdown e s)
  | pmove (e : Vector) (s : GameState) : Step s (pointermove e s)
  | pup (now len : ℚ) (s : GameState) : Step s (pointerup now len s)
  | reset (s : GameState) : Step s (resetLevel s)
  | switchLevel (i : Fin 3) (s : GameState) :
      Step s (resetLevel { s with currentLevel := i })
  | resize (w h : ℚ) (s : GameState) : Step s (resizeCanvas w h s)

/-- A state is reachable if some event sequence produces it from the
post-initialization state of some viewport. -/
def Reach (s : GameState) : Prop :=
  ∃ w h : ℚ, Relation.ReflTransGen Step (initState w h) s

/-- The session invariant carried through every event: the hit counter never
passes the threshold, reaching it always means the round ended as a win, and
the win flag is only ever set in an ended round. -/
def SessionInv (s : GameState) : Prop :=
  s.hitCount ≤ HITS_TO_WIN ∧
    (s.hitCount = HITS_TO_WIN → s.gameOver = true ∧ s.targetHit = true) ∧
    (s.targetHit = true → s.gameOver = true)

lemma sessionInv_applyAllow (now : ℚ) (s : GameState) (hI : SessionInv s) :
    SessionInv (applyAllow now s) := by
  unfold SessionInv at *
  rwa [applyAllow_hitCount, applyAllow_gameOver, applyAllow_targetHit]

lemma sessionInv_physics (s : GameState) (p : Projectile)
    (hg : s.gameOver = false) (hI : SessionInv s) :
    SessionInv (physics s p) := by
  obtain ⟨h1, h2, h3⟩ := hI
  have hne : s.hitCount ≠ HITS_TO_WIN := fun hc => by
    rw [(h2 hc).1] at hg; cases hg
  have hth : s.targetHit = false := by
    cases hth : s.targetHit
    · rfl
    · rw [h3 hth] at hg; cases hg
  unfold physics
  dsimp only
  split
  · exact ⟨h1, fun hc => absurd hc hne, fun _ => rfl⟩
  · split
    · split
      · refine ⟨?_, fun _ => ⟨rfl, rfl⟩, fun _ => rfl⟩
        simp only [HITS_TO_WIN] at *
        omega
      · next hlt =>
        refine ⟨?_, ?_, fun ht => absurd ht (by simp [hth])⟩
        · simp only [HITS_TO_WIN] at *
          omega
        · intro hc
          exact absurd hc (by simp only [HITS_TO_WIN] at *; omega)
    · split
      · exact ⟨h1, h2, h3⟩
      · exact ⟨h1, h2, h3⟩

lemma sessionInv_update (now : ℚ) (s : GameState) (hI : SessionInv s) :
    SessionInv (update now s) := by
  unfold update
  dsimp only
  split
  · next p heq hgo =>
    exact sessionInv_physics _ p hgo (sessionInv_applyAllow now s hI)
  · exact sessionInv_applyAllow now s hI

lemma sessionInv_resetLevel (s : GameState) :
    SessionInv (resetLevel s) := by
  refine ⟨?_, ?_, ?_⟩ <;> simp [resetLevel, SessionInv, HITS_TO_WIN]

lemma sessionInv_step {a b : GameState} (h : Step a b) (hI : SessionInv a) :
    SessionInv b := by
  cases h with
  | tick now => exact sessionInv_update now a hI
  | pdown e =>
    unfold pointerdown
    split
    · exact hI
    · exact hI
  | pmove e =>
    unfold pointermove
    split
    · exact hI
    · exact hI
  | pup now len =>
    unfold pointerup
    split
    · exact hI
    · split
      · exact hI
      · exact hI
  | reset => exact sessionInv_resetLevel a
  | switchLevel i => exact sessionInv_resetLevel _
  | resize w h => exact hI

lemma update_gameOver_frozen (now : ℚ) (s : GameState)
    (hg : s.gameOver = true) :
    (update now s).gameOver = true ∧
      (update now s).targetHit = s.targetHit ∧
      (update now s).hitCount = s.hitCount := by
  have h2 : (applyAllow now s).gameOver = true := by
    rw [applyAllow_gameOver, hg]
  unfold update
  dsimp only
  split
  · next p heq hgo => rw [h2] at hgo; cases hgo
  · exact ⟨h2, applyAllow_targetHit now s, applyAllow_hitCount now s⟩

/-- C8: in every reachable state, `hitCount ≤ HITS_TO_WIN`; reaching
`HITS_TO_WIN` always means the session ended in `RoundOver(Win)` (the
game-over and win flags both set, irrespective of `shotsTaken`); the win
flag never coexists with a live round (so a win banner and a loss banner —
`gameOver ∧ ¬targetHit` — are mutually exclusive); and an ended round is
terminal under `update`: the flags and counter are frozen until a reset. -/
theorem session_win_invariant (s : GameState) (h : Reach s) :
    s.hitCount ≤ HITS_TO_WIN ∧
      (s.hitCount = HITS_TO_WIN → s.gameOver = true ∧ s.targetHit = true) ∧
      (s.targetHit = true → s.gameOver = true) ∧
      (s.gameOver = true → ∀ now,
        (update now s).gameOver = true ∧
          (update now s).targetHit = s.targetHit ∧
          (update now s).hitCount = s.hitCount) := by
  have hInv : SessionInv s := by
    obtain ⟨w, hgt, hsteps⟩ := h
    induction hsteps with
    | refl =>
      refine ⟨?_, ?_, ?_⟩ <;> simp [initState, SessionInv, HITS_TO_WIN]
    | tail hab hbc ih => exact sessionInv_step hbc ih
  obtain ⟨h1, h2, h3⟩ := hInv
  exact ⟨h1, h2, h3, fun hg now => update_gameOver_frozen now s hg⟩

/-- Witness for C8's theorem at the initial state of an 800 × 600 viewport,
reachable in zero steps. -/
theorem session_win_invariant_witness :
    (initState 800 600).hitCount ≤ HITS_TO_WIN :=
  (session_win_invariant (initState 800 600)
    ⟨800, 600, Relation.ReflTransGen.refl⟩).1

end Shoot

namespace Angry

open Shoot (Vector GRAVITY BALL_RADIUS)

/-- The projectile record of `ANGRY-BIRD-GAME/game.js` (`{pos, vel, r}`). -/
structure Projectile where
  pos : Vector
  vel : Vector
  r : ℚ
deriving DecidableEq, Repr

/-- The module-level state of `ANGRY-BIRD-GAME/game.js`: the optional
projectile, the separate module-level `trail` array, and the viewport data
(`canvas.width`, `canvas.height`, `groundY`).  `TRAIL_MAX = 100`. -/
structure State where
  projectile : Option Projectile
  trail : List Vector
  canvasW : ℚ
  canvasH : ℚ
  groundY : ℚ
deriving DecidableEq, Repr

/-- `TRAIL_MAX = 100` (`ANGRY-BIRD-GAME/game.js` line 18). -/
def TRAIL_MAX : ℕ := 100

/-- The `update` function of `ANGRY-BIRD-GAME/game.js` (lines 133-153).
The guard `if (projectile.vel.x || projectile.vel.y)` uses JavaScript number
truthiness: the whole physics block runs only when some velocity component
is nonzero.  On an out-of-bounds or ground contact, the projectile is reset
to rest at `(120, groundY - BALL_RADIUS)` and the trail is cleared. -/
def update (s : State) : State :=
  match s.projectile with
  | none => s
  | some p =>
    if p.vel.x ≠ 0 ∨ p.vel.y ≠ 0 then
      let vel : Vector := ⟨p.vel.x, p.vel.y + GRAVITY⟩
      let pos : Vector := ⟨p.pos.x + vel.x, p.pos.y + vel.y⟩
      let trail1 := s.trail ++ [pos]
      let trail2 := if TRAIL_MAX < trail1.length then trail1.tail else trail1
      if pos.x < 0 ∨ pos.x > s.canvasW ∨ pos.y > s.canvasH ∨
          pos.y > s.groundY - BALL_RADIUS + 2 then
        { s with
          projectile := some ⟨⟨120, s.groundY - BALL_RADIUS⟩, ⟨0, 0⟩,
            BALL_RADIUS⟩
          trail := [] }
      else { s with projectile := some ⟨pos, vel, p.r⟩, trail := trail2 }
    else s

/-- C10: a projectile whose velocity is exactly `(0, 0)` is left completely
unchanged by `update` — no gravity, no movement, no trail append, no bounds
check — on this tick and on every iterated tick, until an external relaunch
replaces it. -/
theorem rest_projectile_fixed (s : State) (p : Projectile)
    (hp : s.projectile = some p) (hx : p.vel.x = 0) (hy : p.vel.y = 0) :
    update s = s ∧ ∀ n : ℕ, update^[n] s = s := by
  have h1 : update s = s := by
    unfold update
    rw [hp]
    simp [hx, hy]
  exact ⟨h1, fun n => Function.iterate_fixed h1 n⟩

/-- Witness for C10's theorem: the resting projectile on the slingshot of a
1000-pixel-tall viewport stays fixed for e.g. 5 consecutive ticks. -/
theorem rest_projectile_fixed_witness :
    update
        { projectile := some ⟨⟨120, 785⟩, ⟨0, 0⟩, 15⟩
          trail := []
          canvasW := 1600
          canvasH := 1000
          groundY := 800 } =
        { projectile := some ⟨⟨120, 785⟩, ⟨0, 0⟩, 15⟩
          trail := []
          canvasW := 1600
          canvasH := 1000
          groundY := 800 } ∧
      update^[5]
          { projectile := some ⟨⟨120, 785⟩, ⟨0, 0⟩, 15⟩
            trail := []
            canvasW := 1600
            canvasH := 1000
            groundY := 800 } =
        { projectile := some ⟨⟨120, 785⟩, ⟨0, 0⟩, 15⟩
          trail := []
          canvasW := 1600
          canvasH := 1000
          groundY := 800 } := by
  have h := rest_projectile_fixed
    { projectile := some ⟨⟨120, 785⟩, ⟨0, 0⟩, 15⟩
      trail := []
      canvasW := 1600
      canvasH := 1000
      groundY := 800 } ⟨⟨120, 785⟩, ⟨0, 0⟩, 15⟩ rfl rfl rfl
  exact ⟨h.1, h.2 5⟩

end Angry
